import Mathlib

/-! # grpcerrors: the status taxonomy and the sanitizer `CleanError`

A shallow embedding of `errors.go` (the taxonomy of gRPC error types, their
`Error`, `GRPCStatus` and `Unwrap` methods, the constructors and the
recognizer `IsInvalidArgumentError`) and of `handle.go` (`CleanError`).

Go `error` values are interface values: a dynamic type together with a
value of that type.  Every taxonomy type has pointer receivers, so the values
are pointers; a pointer is modelled by its identity (`Ptr`) together with the
content of the struct it points to.  The unexported fields are written once,
by the composite literal that allocates the struct, and never again.  A
pointer may be nil: an interface holding a nil pointer is itself not nil, and
a method that reads a field through a nil receiver ends in a run-time panic,
which the methods model by returning no result.

The universe `GoError` contains the sixteen taxonomy types, the two sentinels
of package `context`, and the three wrapping shapes of the standard library
(`errors.New`, `fmt.Errorf` with `%w`, `errors.Join`).  None of these types
declares an `Is` or `As` method, and no type of this repository does.  The
absent error (`nil`) is `none : Option GoError`.
-/

namespace grpcerrors

/-! ## Package `codes` and `status` -/

/-- The gRPC status codes of `google.golang.org/grpc/codes`, in numeric order. -/
inductive Code where
  | OK
  | Canceled
  | Unknown
  | InvalidArgument
  | DeadlineExceeded
  | NotFound
  | AlreadyExists
  | PermissionDenied
  | ResourceExhausted
  | FailedPrecondition
  | Aborted
  | OutOfRange
  | Unimplemented
  | Internal
  | Unavailable
  | DataLoss
  | Unauthenticated
  deriving DecidableEq, Repr

/-- The code and message held by a `*status.Status`. -/
structure Status where
  code : Code
  message : String
  deriving DecidableEq, Repr

/-- The function `status.New(c, msg)`. -/
def Status.New (c : Code) (msg : String) : Status := ⟨c, msg⟩

/-! ## Error values -/

/-- The identity of a pointer to a struct of a given type: the nil pointer,
or the struct the package-level variable of that type points to
(`ErrNotFound`, ...), or the struct of allocation number `a`.  A struct with a
field occupies storage of its own, so a fresh allocation is never the struct
of the package-level variable.  For the zero-size struct types Go leaves open
whether pointers to two distinct variables compare equal; both outcomes are
values of this type.  A nil pointer points to no struct: the content written
next to it in a `GoError` is read by no definition. -/
inductive Ptr where
  | nil
  | static
  | heap (a : Nat)
  deriving DecidableEq, Repr

/-- Go error values. -/
inductive GoError where
  /-- `*CancelledError` -/
  | cancelled (p : Ptr)
  /-- `*UnknownError` -/
  | unknown (p : Ptr)
  /-- `*InvalidArgumentError`, `struct { msg string }` -/
  | invalidArgument (p : Ptr) (msg : String)
  /-- `*DeadlineExceededError` -/
  | deadlineExceeded (p : Ptr)
  /-- `*NotFoundError` -/
  | notFound (p : Ptr)
  /-- `*AlreadyExistsError` -/
  | alreadyExists (p : Ptr)
  /-- `*PermissionDeniedError`, `struct { msg string }` -/
  | permissionDenied (p : Ptr) (msg : String)
  /-- `*ResourceExhaustedError` -/
  | resourceExhausted (p : Ptr)
  /-- `*FailedPreconditionError`, `struct { msg string }` -/
  | failedPrecondition (p : Ptr) (msg : String)
  /-- `*AbortedError` -/
  | aborted (p : Ptr)
  /-- `*OutOfRangeError` -/
  | outOfRange (p : Ptr)
  /-- `*UnimplementedError` -/
  | unimplemented (p : Ptr)
  /-- `*InternalError`, `struct { err error }` -/
  | internal (p : Ptr) (err : Option GoError)
  /-- `*UnavailableError` -/
  | unavailable (p : Ptr)
  /-- `*DataLossError` -/
  | dataLoss (p : Ptr)
  /-- `*UnauthenticatedError` -/
  | unauthenticated (p : Ptr)
  /-- `context.Canceled`, the value of `errors.New("context canceled")` -/
  | ctxCanceled
  /-- `context.DeadlineExceeded`, the value `deadlineExceededError{}` -/
  | ctxDeadlineExceeded
  /-- `errors.New(s)`: a `*errorString` other than `context.Canceled` -/
  | errorString (a : Nat) (s : String)
  /-- `fmt.Errorf` with one `%w`: a `*wrapError` with its text and operand -/
  | wrapError (a : Nat) (msg : String) (err : GoError)
  /-- `errors.Join(errs...)`: a `*joinError` -/
  | joinError (a : Nat) (errs : List GoError)

/-- The variable `context.Canceled`. -/
def context.Canceled : GoError := .ctxCanceled

/-- The variable `context.DeadlineExceeded`. -/
def context.DeadlineExceeded : GoError := .ctxDeadlineExceeded

namespace GoError

/-- The method `Unwrap() error`, `none` for the types that do not declare it.
In the taxonomy only `*CancelledError` and `*DeadlineExceededError` do. -/
def Unwrap : GoError → Option GoError
  | cancelled _ => some context.Canceled
  | deadlineExceeded _ => some context.DeadlineExceeded
  | wrapError _ _ err => some err
  | _ => none

/-- The method `Unwrap() []error`, `none` for the types that do not declare
it. -/
def UnwrapAll : GoError → Option (List GoError)
  | joinError _ errs => some errs
  | _ => none

mutual
/-- The method `Error() string` of every type of the universe: the string the
call returns, `none` when the call panics.  The methods of the four types
with a field read it through the receiver, and panic on a nil receiver; the
methods of the empty struct types return a literal and read nothing. -/
def Error : GoError → Option String
  | cancelled _ => some "context cancelled"
  | unknown _ => some "unknown error"
  | invalidArgument .nil _ => none
  | invalidArgument _ msg => some msg
  | deadlineExceeded _ => some "deadline exceeded"
  | notFound _ => some "not found"
  | alreadyExists _ => some "already exists"
  | permissionDenied .nil _ => none
  | permissionDenied _ msg => some (if msg = "" then "permission denied" else msg)
  | resourceExhausted _ => some "resource exhausted"
  | failedPrecondition .nil _ => none
  | failedPrecondition _ msg => some (if msg = "" then "failed precondition" else msg)
  | aborted _ => some "aborted"
  | outOfRange _ => some "out of range"
  | unimplemented _ => some "unimplemented"
  | internal .nil _ => none
  | internal _ (some e) => Error e
  | internal _ none => some "internal error"
  | unavailable _ => some "unavailable"
  | dataLoss _ => some "data loss"
  | unauthenticated _ => some "unauthenticated"
  | ctxCanceled => some "context canceled"
  | ctxDeadlineExceeded => some "context deadline exceeded"
  | errorString _ s => some s
  | wrapError _ msg _ => some msg
  | joinError _ errs => ErrorLines errs
/-- The text of a `*joinError`: the texts of its errors, one per line. -/
def ErrorLines : List GoError → Option String
  | [] => some ""
  | [e] => Error e
  | e :: es =>
      match Error e, ErrorLines es with
      | some s, some t => some (s ++ "\n" ++ t)
      | _, _ => none
end

/-- The dynamic types of the values of `GoError`. -/
inductive GoType where
  | CancelledError
  | UnknownError
  | InvalidArgumentError
  | DeadlineExceededError
  | NotFoundError
  | AlreadyExistsError
  | PermissionDeniedError
  | ResourceExhaustedError
  | FailedPreconditionError
  | AbortedError
  | OutOfRangeError
  | UnimplementedError
  | InternalError
  | UnavailableError
  | DataLossError
  | UnauthenticatedError
  | errorString
  | deadlineExceededError
  | wrapError
  | joinError
  deriving DecidableEq, Repr

/-- The dynamic type of an error value (for the pointer types, the type
pointed to). -/
def typeOf : GoError → GoType
  | cancelled _ => .CancelledError
  | unknown _ => .UnknownError
  | invalidArgument _ _ => .InvalidArgumentError
  | deadlineExceeded _ => .DeadlineExceededError
  | notFound _ => .NotFoundError
  | alreadyExists _ => .AlreadyExistsError
  | permissionDenied _ _ => .PermissionDeniedError
  | resourceExhausted _ => .ResourceExhaustedError
  | failedPrecondition _ _ => .FailedPreconditionError
  | aborted _ => .AbortedError
  | outOfRange _ => .OutOfRangeError
  | unimplemented _ => .UnimplementedError
  | internal _ _ => .InternalError
  | unavailable _ => .UnavailableError
  | dataLoss _ => .DataLossError
  | unauthenticated _ => .UnauthenticatedError
  | ctxCanceled => .errorString
  | ctxDeadlineExceeded => .deadlineExceededError
  | errorString _ _ => .errorString
  | wrapError _ _ _ => .wrapError
  | joinError _ _ => .joinError

/-- The pointer held by an error value; `none` for `deadlineExceededError`,
the one type of the universe that is a struct value and not a pointer. -/
def ptrOf : GoError → Option Ptr
  | cancelled p => some p
  | unknown p => some p
  | invalidArgument p _ => some p
  | deadlineExceeded p => some p
  | notFound p => some p
  | alreadyExists p => some p
  | permissionDenied p _ => some p
  | resourceExhausted p => some p
  | failedPrecondition p _ => some p
  | aborted p => some p
  | outOfRange p => some p
  | unimplemented p => some p
  | internal p _ => some p
  | unavailable p => some p
  | dataLoss p => some p
  | unauthenticated p => some p
  | ctxCanceled => some .static
  | ctxDeadlineExceeded => none
  | errorString a _ => some (.heap a)
  | wrapError a _ _ => some (.heap a)
  | joinError a _ => some (.heap a)

/-- The comparison `x == y` of two non-nil interface values: identical
dynamic types and equal values, which for pointers is identity. -/
def sameValue (x y : GoError) : Bool :=
  decide (typeOf x = typeOf y) && decide (ptrOf x = ptrOf y)

mutual
/-- The loop `is(err, target, true)` of package `errors`, for a non-nil
`err` and a non-nil comparable `target`: compare, then follow `Unwrap() error`
(`*CancelledError`, `*DeadlineExceededError`, `*wrapError`) or try each element
of `Unwrap() []error` (`*joinError`) in order.  The sentinel a taxonomy value
unwraps to has no `Unwrap` method, so the loop ends after comparing it; the
theorem `is_loop` states the loop through `Unwrap` and `UnwrapAll`. -/
def is : GoError → GoError → Bool
  | cancelled p, target => sameValue (cancelled p) target || sameValue ctxCanceled target
  | deadlineExceeded p, target =>
      sameValue (deadlineExceeded p) target || sameValue ctxDeadlineExceeded target
  | wrapError a msg e, target => sameValue (wrapError a msg e) target || is e target
  | joinError a errs, target => sameValue (joinError a errs) target || isAny errs target
  | err, target => sameValue err target
/-- The `for _, err := range x.Unwrap()` loop of `is`. -/
def isAny : List GoError → GoError → Bool
  | [], _ => false
  | e :: es, target => is e target || isAny es target
end

mutual
/-- The loop `as(err, target, ...)` of package `errors` for a target of type
`*T`, `T` a concrete pointer type: the first value of the chain whose dynamic
type is `T`, which is what the call stores in `*target`; the theorem `as_loop`
states the loop through `Unwrap` and `UnwrapAll`. -/
def as (T : GoType) : GoError → Option GoError
  | cancelled p => if typeOf (cancelled p) = T then some (cancelled p) else
      if typeOf ctxCanceled = T then some ctxCanceled else none
  | deadlineExceeded p => if typeOf (deadlineExceeded p) = T then some (deadlineExceeded p) else
      if typeOf ctxDeadlineExceeded = T then some ctxDeadlineExceeded else none
  | wrapError a msg e => if typeOf (wrapError a msg e) = T then some (wrapError a msg e) else as T e
  | joinError a errs =>
      if typeOf (joinError a errs) = T then some (joinError a errs) else asAny T errs
  | err => if typeOf err = T then some err else none
/-- The `for _, err := range x.Unwrap()` loop of `as`. -/
def asAny (T : GoType) : List GoError → Option GoError
  | [] => none
  | e :: es =>
      match as T e with
      | some x => some x
      | none => asAny T es
end

mutual
/-- The unwrap chain of an error: the values `errors.Is` and `errors.As`
visit, in the order they visit them (the error itself, then what it unwraps
to, depth first). -/
def chain : GoError → List GoError
  | cancelled p => [cancelled p, ctxCanceled]
  | deadlineExceeded p => [deadlineExceeded p, ctxDeadlineExceeded]
  | wrapError a msg e => wrapError a msg e :: chain e
  | joinError a errs => joinError a errs :: chainAll errs
  | err => [err]
/-- The chains of a list of errors, one after the other. -/
def chainAll : List GoError → List GoError
  | [] => []
  | e :: es => chain e ++ chainAll es
end

end GoError

open GoError

namespace errors

/-- The function `errors.Is(err, target)`; `none` is the nil error. -/
def Is (err target : Option GoError) : Bool :=
  match err, target with
  | some e, some t => GoError.is e t
  | none, none => true
  | _, _ => false

/-- The function `errors.As(err, &x)` for `x` of type `*T`: the value stored
in `x` when the call returns true, `none` when it returns false. -/
def As (err : Option GoError) (T : GoType) : Option GoError :=
  match err with
  | none => none
  | some e => GoError.as T e

end errors

/-! ## `errors.go` -/

def ErrContextCancelled : GoError := .cancelled .static
def ErrUnknown : GoError := .unknown .static
def ErrDeadlineExceeded : GoError := .deadlineExceeded .static
def ErrNotFound : GoError := .notFound .static
def ErrAlreadyExists : GoError := .alreadyExists .static
def ErrPermissionDenied : GoError := .permissionDenied .static ""
def ErrResourceExhausted : GoError := .resourceExhausted .static
def ErrFailedPrecondition : GoError := .failedPrecondition .static ""
def ErrAborted : GoError := .aborted .static
def ErrOutOfRange : GoError := .outOfRange .static
def ErrUnimplemented : GoError := .unimplemented .static
def ErrInternal : GoError := .internal .static none
def ErrUnavailable : GoError := .unavailable .static
def ErrDataLoss : GoError := .dataLoss .static
def ErrUnauthenticated : GoError := .unauthenticated .static

def statusCancelled : Status := Status.New .Canceled "context cancelled"
def statusUnknown : Status := Status.New .Unknown "unknown error"
def statusInvalidArgument : Status := Status.New .InvalidArgument "invalid argument"
def statusDeadlineExceeded : Status := Status.New .DeadlineExceeded "deadline exceeded"
def statusNotFound : Status := Status.New .NotFound "not found"
def statusAlreadyExists : Status := Status.New .AlreadyExists "already exists"
def statusPermissionDenied : Status := Status.New .PermissionDenied "permission denied"
def statusResourceExhausted : Status := Status.New .ResourceExhausted "resource exhausted"
def statusFailedPrecondition : Status := Status.New .FailedPrecondition "failed precondition"
def statusAborted : Status := Status.New .Aborted "aborted"
def statusOutOfRange : Status := Status.New .OutOfRange "out of range"
def statusUnimplemented : Status := Status.New .Unimplemented "unimplemented"
def statusInternal : Status := Status.New .Internal "internal error"
def statusUnavailable : Status := Status.New .Unavailable "unavailable"
def statusDataLoss : Status := Status.New .DataLoss "data loss"
def statusUnauthenticated : Status := Status.New .Unauthenticated "unauthenticated"

/-- The method `GRPCStatus() *status.Status`: the status the call returns,
`none` when it returns none.  That is the case for the types that do not
declare the method, and for a nil receiver of one of the three types whose
method reads `e.msg`, where the call panics.  The method of
`*InternalError` reads no field. -/
def GoError.GRPCStatus : GoError → Option Status
  | .cancelled _ => some statusCancelled
  | .unknown _ => some statusUnknown
  | .invalidArgument .nil _ => none
  | .invalidArgument _ msg =>
      if msg = "" then some statusInvalidArgument else some (Status.New .InvalidArgument msg)
  | .deadlineExceeded _ => some statusDeadlineExceeded
  | .notFound _ => some statusNotFound
  | .alreadyExists _ => some statusAlreadyExists
  | .permissionDenied .nil _ => none
  | .permissionDenied _ msg =>
      if msg = "" then some statusPermissionDenied else some (Status.New .PermissionDenied msg)
  | .resourceExhausted _ => some statusResourceExhausted
  | .failedPrecondition .nil _ => none
  | .failedPrecondition _ msg =>
      if msg = "" then some statusFailedPrecondition
      else some (Status.New .FailedPrecondition msg)
  | .aborted _ => some statusAborted
  | .outOfRange _ => some statusOutOfRange
  | .unimplemented _ => some statusUnimplemented
  | .internal _ _ => some statusInternal
  | .unavailable _ => some statusUnavailable
  | .dataLoss _ => some statusDataLoss
  | .unauthenticated _ => some statusUnauthenticated
  | _ => none

/-- The constructor `MakeInvalidArgumentError(msg)`; `a` is the allocation the
composite literal `&InvalidArgumentError{msg: msg}` makes. -/
def MakeInvalidArgumentError (msg : String) (a : Nat) : GoError :=
  .invalidArgument (.heap a) msg

/-- The constructor `MakePermissionDeniedError(msg)`, allocation `a`. -/
def MakePermissionDeniedError (msg : String) (a : Nat) : GoError :=
  .permissionDenied (.heap a) msg

/-- The constructor `MakeFailedPreconditionError(msg)`, allocation `a`. -/
def MakeFailedPreconditionError (msg : String) (a : Nat) : GoError :=
  .failedPrecondition (.heap a) msg

/-- The constructor `MakeInternalError(msg)`: allocation `a` is the
`InternalError`, allocation `b` the `errorString` of `errors.New(msg)`. -/
def MakeInternalError (msg : String) (a b : Nat) : GoError :=
  .internal (.heap a) (some (.errorString b msg))

/-- The value `(*InvalidArgumentError)(nil)` held in an `error`: a non-nil
interface value whose pointer is nil. -/
def nilInvalidArgumentError : GoError := .invalidArgument .nil ""

/-- The function `IsInvalidArgumentError(err)`, with its two results. -/
def IsInvalidArgumentError (err : Option GoError) : Option GoError × Bool :=
  match errors.As err .InvalidArgumentError with
  | some invalidArgumentErr => (some invalidArgumentErr, true)
  | none => (none, false)

/-! ## `handle.go` -/

/-- A `context.Context`; `CleanError` only hands it on to the logger. -/
structure Context where
  id : Nat
  deriving DecidableEq, Repr

/-- The severities of `log/slog`. -/
inductive Level where
  | Debug
  | Info
  | Warn
  | Error
  deriving DecidableEq, Repr

/-- One call of the logger: severity, context, message and the key-value
arguments. -/
structure Record where
  level : Level
  ctx : Context
  msg : String
  args : List (String × GoError)

/-- The call `slog.ErrorContext(ctx, msg, key, value)`. -/
def slog.ErrorContext (ctx : Context) (msg : String) (key : String) (value : GoError) :
    Record :=
  ⟨.Error, ctx, msg, [(key, value)]⟩

/-- The function `CleanError(ctx, err)`.  The result is the returned error
together with the records handed to the logger, in order.  `caller` is
`f.Name()`, the name `runtime.FuncForPC` gives for the frame that called
`CleanError`. -/
def CleanError (ctx : Context) (caller : String) (err : Option GoError) :
    Option GoError × List Record :=
  match err with
  | none => (none, [])
  | some e =>
    match errors.As (some e) .InvalidArgumentError with
    | some invalidArgumentErr => (some invalidArgumentErr, [])
    | none =>
      if errors.Is (some e) (some context.Canceled) then (some ErrContextCancelled, [])
      else if errors.Is (some e) (some context.DeadlineExceeded) then
        (some ErrDeadlineExceeded, [])
      else if errors.Is (some e) (some ErrNotFound) then (some ErrNotFound, [])
      else if errors.Is (some e) (some ErrAlreadyExists) then (some ErrAlreadyExists, [])
      else if errors.Is (some e) (some ErrPermissionDenied) then
        (some ErrPermissionDenied, [])
      else if errors.Is (some e) (some ErrResourceExhausted) then
        (some ErrResourceExhausted, [])
      else
        (some ErrInternal, [slog.ErrorContext ctx (caller ++ " failed") "error" e])

/-! ## Vocabulary of the specification -/

/-- The error `err` is the value `t` or wraps it: some value of the unwrap
chain of `err` is identical to `t`. -/
def IsOrWraps (err t : GoError) : Prop :=
  ∃ e ∈ GoError.chain err, GoError.sameValue e t = true

/-- The error `err` is or wraps a value of dynamic type `*T`. -/
def IsOrWrapsType (T : GoType) (err : GoError) : Prop :=
  ∃ e ∈ GoError.chain err, GoError.typeOf e = T

/-- The error `err` wraps a value of dynamic type `*T`: the chain has one
after `err` itself. -/
def WrapsType (T : GoType) (err : GoError) : Prop :=
  ∃ e ∈ (GoError.chain err).tail, GoError.typeOf e = T

/-- The error value holds a nil pointer. -/
def IsNilPointer (e : GoError) : Prop := GoError.ptrOf e = some .nil

/-- The first value of dynamic type `*T` in the unwrap chain of `err`. -/
def firstOfType (T : GoType) (err : GoError) : Option GoError :=
  (GoError.chain err).find? (fun e => decide (GoError.typeOf e = T))

/-- No recognizer of `CleanError` matches `err`: it neither is nor wraps an
`*InvalidArgumentError`, and `errors.Is` fails against each of the six
targets. -/
def Unrecognized (err : GoError) : Prop :=
  firstOfType .InvalidArgumentError err = none ∧
  errors.Is (some err) (some context.Canceled) = false ∧
  errors.Is (some err) (some context.DeadlineExceeded) = false ∧
  errors.Is (some err) (some ErrNotFound) = false ∧
  errors.Is (some err) (some ErrAlreadyExists) = false ∧
  errors.Is (some err) (some ErrPermissionDenied) = false ∧
  errors.Is (some err) (some ErrResourceExhausted) = false

/-- The sixteen standardized codes of the taxonomy. -/
def standardCodes : List Code :=
  [.Canceled, .Unknown, .InvalidArgument, .DeadlineExceeded, .NotFound, .AlreadyExists,
   .PermissionDenied, .ResourceExhausted, .FailedPrecondition, .Aborted, .OutOfRange,
   .Unimplemented, .Internal, .Unavailable, .DataLoss, .Unauthenticated]

/-- The fixed message literals of the taxonomy: the messages of the sixteen
package-level statuses. -/
def fixedMessages : List String :=
  [statusCancelled.message, statusUnknown.message, statusInvalidArgument.message,
   statusDeadlineExceeded.message, statusNotFound.message, statusAlreadyExists.message,
   statusPermissionDenied.message, statusResourceExhausted.message,
   statusFailedPrecondition.message, statusAborted.message, statusOutOfRange.message,
   statusUnimplemented.message, statusInternal.message, statusUnavailable.message,
   statusDataLoss.message, statusUnauthenticated.message]

/-- The twelve fixed-message variants, each as the pointer `p` to a struct of
its type: the taxonomy types that are empty structs. -/
def fixedMessageVariants (p : Ptr) : List GoError :=
  [.cancelled p, .unknown p, .deadlineExceeded p, .notFound p, .alreadyExists p,
   .resourceExhausted p, .aborted p, .outOfRange p, .unimplemented p, .unavailable p,
   .dataLoss p, .unauthenticated p]

/-- The sixteen types of the taxonomy. -/
def taxonomyTypes : List GoType :=
  [.CancelledError, .UnknownError, .InvalidArgumentError, .DeadlineExceededError,
   .NotFoundError, .AlreadyExistsError, .PermissionDeniedError, .ResourceExhaustedError,
   .FailedPreconditionError, .AbortedError, .OutOfRangeError, .UnimplementedError,
   .InternalError, .UnavailableError, .DataLossError, .UnauthenticatedError]

/-- The recognizer as the specification words it: given an arbitrary error,
report whether it is or wraps an invalid-argument variant, and return the
typed instance (the first of the unwrap chain) if so. -/
def IsInvalidArgumentError_spec (err : Option GoError) : Option GoError × Bool :=
  match err with
  | none => (none, false)
  | some e =>
    match firstOfType .InvalidArgumentError e with
    | some x => (some x, true)
    | none => (none, false)

/-- The ordered list of recognizers of the specification, each paired with
the value the sanitizer returns when it matches: `none` when the recognizer
does not match the error. -/
def recognizers : List (GoError → Option GoError) :=
  [fun e => firstOfType .InvalidArgumentError e,
   fun e => if errors.Is (some e) (some context.Canceled) then some ErrContextCancelled else none,
   fun e =>
     if errors.Is (some e) (some context.DeadlineExceeded) then some ErrDeadlineExceeded
     else none,
   fun e => if errors.Is (some e) (some ErrNotFound) then some ErrNotFound else none,
   fun e => if errors.Is (some e) (some ErrAlreadyExists) then some ErrAlreadyExists else none,
   fun e =>
     if errors.Is (some e) (some ErrPermissionDenied) then some ErrPermissionDenied else none,
   fun e =>
     if errors.Is (some e) (some ErrResourceExhausted) then some ErrResourceExhausted
     else none]

/-- The sanitizer as the specification words it: absent for an absent input,
otherwise the value of the first recognizer of the ordered list that matches,
and the internal-error variant when none does. -/
def sanitize_spec (err : Option GoError) : Option GoError :=
  match err with
  | none => none
  | some e =>
    match recognizers.findSome? (fun r => r e) with
    | some x => some x
    | none => some ErrInternal

/-- The codes of the values `CleanError` can return. -/
def allowedCodes : List Code :=
  [.InvalidArgument, .Canceled, .DeadlineExceeded, .NotFound, .AlreadyExists,
   .PermissionDenied, .ResourceExhausted, .Internal]

/-! ## The loops of package `errors` and the unwrap chain -/

namespace GoError

/-- One turn of the loop of `errors.Is`: compare, then continue with what
`Unwrap() error` returns, or with each element of what `Unwrap() []error`
returns, and stop when the type declares neither. -/
theorem is_loop (err target : GoError) :
    is err target =
      (sameValue err target ||
        match Unwrap err with
        | some e => is e target
        | none =>
          match UnwrapAll err with
          | some es => isAny es target
          | none => false) := by
  cases err <;>
    simp [is, Unwrap, UnwrapAll, context.Canceled, context.DeadlineExceeded]

/-- One turn of the loop of `errors.As`: take the error when its type is the
target type, else continue with what it unwraps to. -/
theorem as_loop (T : GoType) (err : GoError) :
    as T err =
      if typeOf err = T then some err
      else
        match Unwrap err with
        | some e => as T e
        | none =>
          match UnwrapAll err with
          | some es => asAny T es
          | none => none := by
  cases err <;>
    simp [as, Unwrap, UnwrapAll, context.Canceled, context.DeadlineExceeded]

/-- The unwrap chain is the error followed by the chains of what it unwraps to. -/
theorem chain_loop (err : GoError) :
    chain err =
      err ::
        match Unwrap err with
        | some e => chain e
        | none =>
          match UnwrapAll err with
          | some es => chainAll es
          | none => [] := by
  cases err <;>
    simp [chain, Unwrap, UnwrapAll, context.Canceled, context.DeadlineExceeded]

mutual
/-- The loop of `errors.Is` succeeds exactly when a value of the chain is the target. -/
theorem is_eq_any_chain (t : GoError) :
    (err : GoError) → is err t = (chain err).any (fun e => sameValue e t)
  | wrapError a msg e => by simp [is, chain, is_eq_any_chain t e]
  | joinError a errs => by simp [is, chain, isAny_eq_any_chainAll t errs]
  | cancelled _ | deadlineExceeded _ => by simp [is, chain]
  | unknown _ | invalidArgument _ _ | notFound _ | alreadyExists _ | permissionDenied _ _
  | resourceExhausted _ | failedPrecondition _ _ | aborted _ | outOfRange _ | unimplemented _
  | internal _ _ | unavailable _ | dataLoss _ | unauthenticated _ | ctxCanceled
  | ctxDeadlineExceeded | errorString _ _ => by simp [is, chain]
/-- The list form of `is_eq_any_chain`. -/
theorem isAny_eq_any_chainAll (t : GoError) :
    (es : List GoError) → isAny es t = (chainAll es).any (fun e => sameValue e t)
  | [] => by simp [isAny, chainAll]
  | e :: es => by
      simp [isAny, chainAll, is_eq_any_chain t e, isAny_eq_any_chainAll t es]
end

mutual
/-- The loop of `errors.As` finds the first value of the chain of the target type. -/
theorem as_eq_find_chain (T : GoType) :
    (err : GoError) → as T err = (chain err).find? (fun e => decide (typeOf e = T))
  | wrapError a msg e => by
      by_cases h : typeOf (wrapError a msg e) = T <;> simp [as, chain, h, as_eq_find_chain T e]
  | joinError a errs => by
      by_cases h : typeOf (joinError a errs) = T <;>
        simp [as, chain, h, asAny_eq_find_chainAll T errs]
  | cancelled p => by
      by_cases h : typeOf (cancelled p) = T <;> by_cases h2 : typeOf ctxCanceled = T <;>
        simp [as, chain, h, h2]
  | deadlineExceeded p => by
      by_cases h : typeOf (deadlineExceeded p) = T <;>
        by_cases h2 : typeOf ctxDeadlineExceeded = T <;> simp [as, chain, h, h2]
  | unknown _ | invalidArgument _ _ | notFound _ | alreadyExists _ | permissionDenied _ _
  | resourceExhausted _ | failedPrecondition _ _ | aborted _ | outOfRange _ | unimplemented _
  | internal _ _ | unavailable _ | dataLoss _ | unauthenticated _ | ctxCanceled
  | ctxDeadlineExceeded | errorString _ _ => by
      simp only [as, chain, List.find?_cons, List.find?_nil]
      split <;> simp_all
/-- The list form of `as_eq_find_chain`. -/
theorem asAny_eq_find_chainAll (T : GoType) :
    (es : List GoError) → asAny T es = (chainAll es).find? (fun e => decide (typeOf e = T))
  | [] => by simp [asAny, chainAll]
  | e :: es => by
      simp only [asAny, chainAll, List.find?_append, as_eq_find_chain T e,
        asAny_eq_find_chainAll T es]
      cases (chain e).find? (fun e => decide (typeOf e = T)) <;> simp
end

end GoError

/-- The call `errors.As(err, &x)` stores the first value of type `*T` of the chain. -/
theorem errors_As_eq_firstOfType (err : GoError) (T : GoType) :
    errors.As (some err) T = firstOfType T err := by
  simp [errors.As, firstOfType, GoError.as_eq_find_chain]

/-- The call `errors.Is(err, target)` holds exactly when `err` is or wraps the target. -/
theorem errors_Is_iff_isOrWraps (err t : GoError) :
    errors.Is (some err) (some t) = true ↔ IsOrWraps err t := by
  simp [errors.Is, IsOrWraps, GoError.is_eq_any_chain]

/-- What `errors.As` stores for an `*InvalidArgumentError` target is of that type. -/
theorem firstOfType_typeOf {T : GoType} {err x : GoError} (h : firstOfType T err = some x) :
    GoError.typeOf x = T := by
  have := List.find?_some h
  simpa using this

/-- The unwrap chain of an error starts with the error itself. -/
theorem chain_eq_cons (err : GoError) :
    GoError.chain err = err :: (GoError.chain err).tail := by
  cases err <;> simp [GoError.chain]

/-- An error that is or wraps a value of type `*T` has a first such value. -/
theorem firstOfType_isSome_of_isOrWrapsType {T : GoType} {err : GoError}
    (h : IsOrWrapsType T err) : ∃ x, firstOfType T err = some x := by
  obtain ⟨e, he, ht⟩ := h
  cases hf : firstOfType T err with
  | some x => exact ⟨x, rfl⟩
  | none =>
    have := List.find?_eq_none.1 hf e he
    simp [ht] at this

/-- An error that neither has type `*T` nor wraps a value of that type has no
value of that type in its chain. -/
theorem firstOfType_eq_none_of_not_wraps {T : GoType} {err : GoError}
    (ht : GoError.typeOf err ≠ T) (h : ¬ WrapsType T err) : firstOfType T err = none := by
  unfold firstOfType
  rw [chain_eq_cons, List.find?_cons_of_neg _ (by simpa using ht)]
  apply List.find?_eq_none.2
  intro x hx hxT
  exact h ⟨x, hx, by simpa using hxT⟩

/-- The value `CleanError` returns when the first recognizer matches. -/
theorem CleanError_of_firstOfType_some (ctx : Context) (caller : String) {err x : GoError}
    (h : firstOfType .InvalidArgumentError err = some x) :
    CleanError ctx caller (some err) = (some x, []) := by
  simp [CleanError, errors_As_eq_firstOfType, h]

/-- The catch-all path of `CleanError`. -/
theorem CleanError_of_unrecognized (ctx : Context) (caller : String) {err : GoError}
    (h : Unrecognized err) :
    CleanError ctx caller (some err) =
      (some ErrInternal, [slog.ErrorContext ctx (caller ++ " failed") "error" err]) := by
  obtain ⟨h0, h1, h2, h3, h4, h5, h6⟩ := h
  simp [CleanError, errors_As_eq_firstOfType, h0, h1, h2, h3, h4, h5, h6]

/-- An error of type `*T` is the first value of that type of its own chain. -/
theorem firstOfType_self {T : GoType} {x : GoError} (h : GoError.typeOf x = T) :
    firstOfType T x = some x := by
  unfold firstOfType
  rw [chain_eq_cons, List.find?_cons_of_pos _ (by simpa using h)]

/-- The seven fixed values `CleanError` returns besides an `*InvalidArgumentError`. -/
theorem CleanError_fixed_point (ctx : Context) (caller : String) (r : GoError)
    (h : r ∈ [ErrContextCancelled, ErrDeadlineExceeded, ErrNotFound, ErrAlreadyExists,
      ErrPermissionDenied, ErrResourceExhausted, ErrInternal]) :
    (CleanError ctx caller (some r)).1 = some r := by
  simp only [List.mem_cons, List.mem_singleton, List.not_mem_nil, or_false] at h
  rcases h with h | h | h | h | h | h | h <;> subst h <;> rfl

/-- The paths of `CleanError` on a non-nil error: the first recognizer matches,
or one of the six `errors.Is` tests does, or none does. -/
theorem CleanError_result_cases (ctx : Context) (caller : String) (e : GoError) :
    (∃ x, firstOfType .InvalidArgumentError e = some x ∧
      CleanError ctx caller (some e) = (some x, [])) ∨
    (¬ Unrecognized e ∧
      ∃ r ∈ [ErrContextCancelled, ErrDeadlineExceeded, ErrNotFound, ErrAlreadyExists,
        ErrPermissionDenied, ErrResourceExhausted],
        CleanError ctx caller (some e) = (some r, [])) ∨
    (Unrecognized e ∧
      CleanError ctx caller (some e) =
        (some ErrInternal, [slog.ErrorContext ctx (caller ++ " failed") "error" e])) := by
  cases hIA : firstOfType .InvalidArgumentError e with
  | some x => exact Or.inl ⟨x, rfl, CleanError_of_firstOfType_some ctx caller hIA⟩
  | none =>
    right
    by_cases hu : Unrecognized e
    · exact Or.inr ⟨hu, CleanError_of_unrecognized ctx caller hu⟩
    · refine Or.inl ⟨hu, ?_⟩
      simp only [Unrecognized, hIA, true_and] at hu
      simp only [CleanError, errors_As_eq_firstOfType, hIA]
      split_ifs with h1 h2 h3 h4 h5 h6
      · exact ⟨_, by simp, rfl⟩
      · exact ⟨_, by simp, rfl⟩
      · exact ⟨_, by simp, rfl⟩
      · exact ⟨_, by simp, rfl⟩
      · exact ⟨_, by simp, rfl⟩
      · exact ⟨_, by simp, rfl⟩
      · exact absurd ⟨by simpa using h1, by simpa using h2, by simpa using h3,
          by simpa using h4, by simpa using h5, by simpa using h6⟩ hu

/-- The status of an `*InvalidArgumentError` that is not a nil pointer. -/
theorem GRPCStatus_invalidArgument_of_not_nil {p : Ptr} {msg : String}
    (h : ¬ IsNilPointer (.invalidArgument p msg)) :
    (GoError.invalidArgument p msg).GRPCStatus =
      if msg = "" then some statusInvalidArgument
      else some (Status.New .InvalidArgument msg) := by
  cases p
  · exact absurd rfl h
  · rfl
  · rfl

/-! ## Claims about the sanitizer and the taxonomy -/

/-- Claim C1, as amended: for every non-nil error that no recognizer matches,
`CleanError` returns the `ErrInternal` singleton, whose status is
`(Internal, "internal error")`; unless the input already is the `ErrInternal`
pointer the returned value is not the input, and the returned status is the
same for every unrecognized error. -/
theorem C1_unrecognized_returns_ErrInternal (ctx : Context) (caller : String) (err : GoError)
    (h : Unrecognized err) :
    (CleanError ctx caller (some err)).1 = some ErrInternal ∧
    ErrInternal.GRPCStatus = some ⟨.Internal, "internal error"⟩ ∧
    (GoError.sameValue err ErrInternal = false →
      ∀ r, (CleanError ctx caller (some err)).1 = some r → GoError.sameValue r err = false) ∧
    (∀ err₂, Unrecognized err₂ →
      (CleanError ctx caller (some err₂)).1.bind GoError.GRPCStatus =
        (CleanError ctx caller (some err)).1.bind GoError.GRPCStatus) := by
  have hc := CleanError_of_unrecognized ctx caller h
  refine ⟨by rw [hc], rfl, ?_, ?_⟩
  · intro hne r hr
    rw [hc] at hr
    simp only [Option.some.injEq] at hr
    subst hr
    simp only [GoError.sameValue, Bool.and_eq_false_imp, decide_eq_true_eq,
      decide_eq_false_iff_not] at hne ⊢
    intro ht hp
    exact hne ht.symm hp.symm
  · intro err₂ h₂
    rw [hc, CleanError_of_unrecognized ctx caller h₂]

/-- The theorem of claim C1 at `errors.New("pq: connection refused")`. -/
theorem C1_unrecognized_witness :
    Unrecognized (.errorString 0 "pq: connection refused") ∧
    (CleanError ⟨0⟩ "Get" (some (.errorString 0 "pq: connection refused"))).1 =
      some ErrInternal :=
  ⟨⟨rfl, rfl, rfl, rfl, rfl, rfl, rfl⟩,
   (C1_unrecognized_returns_ErrInternal ⟨0⟩ "Get" (.errorString 0 "pq: connection refused")
      ⟨rfl, rfl, rfl, rfl, rfl, rfl, rfl⟩).1⟩

/-- Claim C1 as stated fails at `ErrInternal`: no recognizer matches it, and
the value `CleanError` returns is that very pointer. -/
theorem C1_counterexample_ErrInternal :
    Unrecognized ErrInternal ∧
    (CleanError ⟨0⟩ "Get" (some ErrInternal)).1 = some ErrInternal ∧
    GoError.sameValue ErrInternal ErrInternal = true :=
  ⟨⟨rfl, rfl, rfl, rfl, rfl, rfl, rfl⟩, rfl, rfl⟩

/-- Claim C2: for every string `s`, the status of `MakeInternalError(s)` is
`(Internal, "internal error")`, and so is the status of `ErrInternal`. -/
theorem C2_internal_status_fixed (s : String) (a b : Nat) :
    (MakeInternalError s a b).GRPCStatus = some ⟨.Internal, "internal error"⟩ ∧
    ErrInternal.GRPCStatus = some ⟨.Internal, "internal error"⟩ ∧
    (MakeInternalError s a b).GRPCStatus = ErrInternal.GRPCStatus :=
  ⟨rfl, rfl, rfl⟩

/-- Claim C3, as amended: for every non-nil error whose first
`*InvalidArgumentError`, if its chain has one, is not a nil pointer, the value
`CleanError` returns has a status whose code is one of the standardized codes
and whose message is not empty; the message is a fixed literal of the taxonomy
or the message of the first `*InvalidArgumentError` of the chain of the input,
it is a fixed literal when the chain has no such value, and it is
"internal error" when no recognizer matches. -/
theorem C3_result_status_is_safe (ctx : Context) (caller : String) (err : GoError)
    (hnil : ∀ x, firstOfType .InvalidArgumentError err = some x → ¬ IsNilPointer x) :
    ∃ r st, (CleanError ctx caller (some err)).1 = some r ∧ r.GRPCStatus = some st ∧
      st.code ∈ standardCodes ∧ st.message ≠ "" ∧
      (st.message ∈ fixedMessages ∨
        ∃ p, firstOfType .InvalidArgumentError err = some (.invalidArgument p st.message)) ∧
      (firstOfType .InvalidArgumentError err = none → st.message ∈ fixedMessages) ∧
      (Unrecognized err → st.message = "internal error") := by
  cases hIA : firstOfType .InvalidArgumentError err with
  | some x =>
    have ht := firstOfType_typeOf hIA
    have hx := hnil x hIA
    rw [CleanError_of_firstOfType_some ctx caller hIA]
    cases x <;> simp [GoError.typeOf] at ht
    rename_i p msg
    have hst := GRPCStatus_invalidArgument_of_not_nil hx
    by_cases hm : msg = ""
    · refine ⟨_, statusInvalidArgument, rfl, by rw [hst, if_pos hm], ?_, ?_, ?_, ?_, ?_⟩
      · simp [standardCodes, statusInvalidArgument, Status.New]
      · simp [statusInvalidArgument, Status.New]
      · exact Or.inl (by simp [fixedMessages])
      · simp
      · intro hu
        rw [hu.1] at hIA
        simp at hIA
    · refine ⟨_, Status.New .InvalidArgument msg, rfl, by rw [hst, if_neg hm],
        ?_, ?_, ?_, ?_, ?_⟩
      · simp [standardCodes, Status.New]
      · simpa [Status.New] using hm
      · exact Or.inr ⟨p, rfl⟩
      · simp
      · intro hu
        rw [hu.1] at hIA
        simp at hIA
  | none =>
    simp only [CleanError, errors_As_eq_firstOfType, hIA]
    split_ifs with h1 h2 h3 h4 h5 h6
    all_goals refine ⟨_, _, rfl, rfl, ?_, ?_, ?_, ?_, ?_⟩
    all_goals
      simp_all [standardCodes, fixedMessages, Unrecognized, statusCancelled,
        statusDeadlineExceeded, statusNotFound, statusAlreadyExists, statusPermissionDenied,
        statusResourceExhausted, statusInternal, Status.New]

/-- The theorem of claim C3 at a wrapped `MakeInvalidArgumentError("bad id")`:
the first `*InvalidArgumentError` of the chain is not a nil pointer, and the
returned value has a status. -/
theorem C3_result_status_witness :
    (∀ x, firstOfType .InvalidArgumentError
        (.wrapError 1 "lookup: bad id" (MakeInvalidArgumentError "bad id" 0)) = some x →
      ¬ IsNilPointer x) ∧
    ∃ r st, (CleanError ⟨0⟩ "Get"
        (some (.wrapError 1 "lookup: bad id" (MakeInvalidArgumentError "bad id" 0)))).1 =
        some r ∧
      r.GRPCStatus = some st ∧ st.code ∈ standardCodes ∧ st.message ≠ "" :=
  have h : ∀ x, firstOfType .InvalidArgumentError
      (.wrapError 1 "lookup: bad id" (MakeInvalidArgumentError "bad id" 0)) = some x →
      ¬ IsNilPointer x := by
    intro x hx hn
    have hx2 : MakeInvalidArgumentError "bad id" 0 = x := Option.some.inj hx
    subst hx2
    exact absurd hn (by simp [IsNilPointer, MakeInvalidArgumentError, GoError.ptrOf])
  ⟨h, by
    obtain ⟨r, st, h1, h2, h3, h4, _⟩ := C3_result_status_is_safe ⟨0⟩ "Get"
      (.wrapError 1 "lookup: bad id" (MakeInvalidArgumentError "bad id" 0)) h
    exact ⟨r, st, h1, h2, h3, h4⟩⟩

/-- Claim C3 as stated fails at the nil pointer `(*InvalidArgumentError)(nil)`:
it is a non-nil error, the first recognizer matches it and `CleanError`
returns it, and the `GRPCStatus` method of its type, which reads `e.msg`,
returns no status for it. -/
theorem C3_counterexample_nil_pointer :
    (CleanError ⟨0⟩ "Get" (some nilInvalidArgumentError)).1 = some nilInvalidArgumentError ∧
    GoError.typeOf nilInvalidArgumentError = .InvalidArgumentError ∧
    IsNilPointer nilInvalidArgumentError ∧
    nilInvalidArgumentError.GRPCStatus = none ∧
    ¬ ∃ r st, (CleanError ⟨0⟩ "Get" (some nilInvalidArgumentError)).1 = some r ∧
      r.GRPCStatus = some st := by
  refine ⟨rfl, rfl, rfl, rfl, ?_⟩
  rintro ⟨r, st, hr, hst⟩
  have hr2 : nilInvalidArgumentError = r := Option.some.inj hr
  subst hr2
  exact Option.noConfusion hst

/-- Claim C4: when `err` is or wraps an `*InvalidArgumentError`, `CleanError`
returns the first one of the unwrap chain of `err`, and logs nothing; for
every string `s`, `CleanError` returns `MakeInvalidArgumentError(s)` itself,
whose `Error()` is `s`. -/
theorem C4_invalidArgument_passes_through (ctx : Context) (caller : String)
    (err : GoError) (s : String) (a : Nat)
    (h : IsOrWrapsType .InvalidArgumentError err) :
    (∃ x, firstOfType .InvalidArgumentError err = some x ∧
      GoError.typeOf x = .InvalidArgumentError ∧
      CleanError ctx caller (some err) = (some x, [])) ∧
    CleanError ctx caller (some (MakeInvalidArgumentError s a)) =
      (some (MakeInvalidArgumentError s a), []) ∧
    (MakeInvalidArgumentError s a).Error = some s := by
  obtain ⟨x, hx⟩ := firstOfType_isSome_of_isOrWrapsType h
  exact ⟨⟨x, hx, firstOfType_typeOf hx, CleanError_of_firstOfType_some ctx caller hx⟩,
    CleanError_of_firstOfType_some ctx caller rfl, rfl⟩

/-- The theorem of claim C4 at a wrapped `MakeInvalidArgumentError("bad id")`. -/
theorem C4_invalidArgument_witness :
    IsOrWrapsType .InvalidArgumentError
      (.wrapError 1 "lookup: bad id" (MakeInvalidArgumentError "bad id" 0)) ∧
    ∃ x, firstOfType .InvalidArgumentError
        (.wrapError 1 "lookup: bad id" (MakeInvalidArgumentError "bad id" 0)) = some x ∧
      GoError.typeOf x = .InvalidArgumentError ∧
      CleanError ⟨0⟩ "Get"
        (some (.wrapError 1 "lookup: bad id" (MakeInvalidArgumentError "bad id" 0))) =
        (some x, []) :=
  ⟨⟨MakeInvalidArgumentError "bad id" 0, by simp [GoError.chain, MakeInvalidArgumentError], rfl⟩,
   (C4_invalidArgument_passes_through ⟨0⟩ "Get"
      (.wrapError 1 "lookup: bad id" (MakeInvalidArgumentError "bad id" 0)) "bad id" 0
      ⟨MakeInvalidArgumentError "bad id" 0, by simp [GoError.chain, MakeInvalidArgumentError],
        rfl⟩).1⟩

/-- Claim C5: for an error that does not wrap an `*InvalidArgumentError`, if
`errors.Is(err, context.Canceled)` holds `CleanError` returns
`ErrContextCancelled`; otherwise, if `errors.Is(err, context.DeadlineExceeded)`
holds, it returns `ErrDeadlineExceeded`.  The two sentinels themselves are
mapped to `ErrContextCancelled` and `ErrDeadlineExceeded`. -/
theorem C5_cancelled_and_deadline (ctx : Context) (caller : String) (err : GoError)
    (h : ¬ WrapsType .InvalidArgumentError err) :
    (errors.Is (some err) (some context.Canceled) = true →
      CleanError ctx caller (some err) = (some ErrContextCancelled, [])) ∧
    (errors.Is (some err) (some context.Canceled) = false →
      errors.Is (some err) (some context.DeadlineExceeded) = true →
      CleanError ctx caller (some err) = (some ErrDeadlineExceeded, [])) ∧
    CleanError ctx caller (some context.Canceled) = (some ErrContextCancelled, []) ∧
    CleanError ctx caller (some context.DeadlineExceeded) = (some ErrDeadlineExceeded, []) := by
  by_cases ht : GoError.typeOf err = .InvalidArgumentError
  · cases err <;> simp [GoError.typeOf] at ht
    exact ⟨fun h1 => Bool.noConfusion h1, fun _ h2 => Bool.noConfusion h2, rfl, rfl⟩
  · have hIA := firstOfType_eq_none_of_not_wraps ht h
    refine ⟨?_, ?_, rfl, rfl⟩
    · intro h1
      simp [CleanError, errors_As_eq_firstOfType, hIA, h1]
    · intro h1 h2
      simp [CleanError, errors_As_eq_firstOfType, hIA, h1, h2]

/-- The theorem of claim C5 at `context.Canceled` wrapped once, and at
`context.DeadlineExceeded` joined with an `errors.New` value. -/
theorem C5_cancelled_and_deadline_witness :
    ¬ WrapsType .InvalidArgumentError
      (.wrapError 0 "query: context canceled" context.Canceled) ∧
    CleanError ⟨0⟩ "Get" (some (.wrapError 0 "query: context canceled" context.Canceled)) =
      (some ErrContextCancelled, []) ∧
    CleanError ⟨0⟩ "Get"
        (some (.joinError 1 [.errorString 0 "timeout", context.DeadlineExceeded])) =
      (some ErrDeadlineExceeded, []) :=
  ⟨by simp [WrapsType, GoError.chain, GoError.typeOf, context.Canceled],
   (C5_cancelled_and_deadline ⟨0⟩ "Get"
      (.wrapError 0 "query: context canceled" context.Canceled)
      (by simp [WrapsType, GoError.chain, GoError.typeOf, context.Canceled])).1 rfl,
   (C5_cancelled_and_deadline ⟨0⟩ "Get"
      (.joinError 1 [.errorString 0 "timeout", context.DeadlineExceeded])
      (by simp [WrapsType, GoError.chain, GoError.chainAll, GoError.typeOf,
        context.DeadlineExceeded])).2.1 rfl rfl⟩

/-- Claim C6, evaluated on the code: for every string `s`, the error
`MakePermissionDeniedError(s)` is not the `ErrPermissionDenied` pointer, so
`errors.Is` against `ErrPermissionDenied` fails, and `CleanError` logs the
error and returns `ErrInternal`, with status `(Internal, "internal error")`,
not `ErrPermissionDenied`. -/
theorem C6_constructed_permissionDenied_becomes_internal (ctx : Context) (caller : String)
    (s : String) (a : Nat) :
    errors.Is (some (MakePermissionDeniedError s a)) (some ErrPermissionDenied) = false ∧
    CleanError ctx caller (some (MakePermissionDeniedError s a)) =
      (some ErrInternal,
        [slog.ErrorContext ctx (caller ++ " failed") "error" (MakePermissionDeniedError s a)]) ∧
    ErrInternal.GRPCStatus = some ⟨.Internal, "internal error"⟩ ∧
    ErrInternal.GRPCStatus ≠ ErrPermissionDenied.GRPCStatus :=
  ⟨rfl, rfl, rfl, by decide⟩

/-- Claim C7: for an error that the first three recognizers do not match,
`CleanError` returns the first of `ErrNotFound`, `ErrAlreadyExists`,
`ErrPermissionDenied`, `ErrResourceExhausted` that the error is or wraps: each
singleton is returned for every error that is or wraps it and matches no
earlier recognizer, and nothing is logged.  Each singleton has the fixed
code and message of its kind. -/
theorem C7_singletons_returned (ctx : Context) (caller : String) (err : GoError)
    (hIA : firstOfType .InvalidArgumentError err = none)
    (hc : errors.Is (some err) (some context.Canceled) = false)
    (hd : errors.Is (some err) (some context.DeadlineExceeded) = false) :
    (IsOrWraps err ErrNotFound →
      CleanError ctx caller (some err) = (some ErrNotFound, [])) ∧
    (¬ IsOrWraps err ErrNotFound → IsOrWraps err ErrAlreadyExists →
      CleanError ctx caller (some err) = (some ErrAlreadyExists, [])) ∧
    (¬ IsOrWraps err ErrNotFound → ¬ IsOrWraps err ErrAlreadyExists →
      IsOrWraps err ErrPermissionDenied →
      CleanError ctx caller (some err) = (some ErrPermissionDenied, [])) ∧
    (¬ IsOrWraps err ErrNotFound → ¬ IsOrWraps err ErrAlreadyExists →
      ¬ IsOrWraps err ErrPermissionDenied → IsOrWraps err ErrResourceExhausted →
      CleanError ctx caller (some err) = (some ErrResourceExhausted, [])) ∧
    ErrNotFound.GRPCStatus = some ⟨.NotFound, "not found"⟩ ∧
    ErrAlreadyExists.GRPCStatus = some ⟨.AlreadyExists, "already exists"⟩ ∧
    ErrPermissionDenied.GRPCStatus = some ⟨.PermissionDenied, "permission denied"⟩ ∧
    ErrResourceExhausted.GRPCStatus = some ⟨.ResourceExhausted, "resource exhausted"⟩ := by
  simp only [← errors_Is_iff_isOrWraps, Bool.not_eq_true]
  refine ⟨?_, ?_, ?_, ?_, rfl, rfl, rfl, rfl⟩
  · intro h1
    simp [CleanError, errors_As_eq_firstOfType, hIA, hc, hd, h1]
  · intro h1 h2
    simp [CleanError, errors_As_eq_firstOfType, hIA, hc, hd, h1, h2]
  · intro h1 h2 h3
    simp [CleanError, errors_As_eq_firstOfType, hIA, hc, hd, h1, h2, h3]
  · intro h1 h2 h3 h4
    simp [CleanError, errors_As_eq_firstOfType, hIA, hc, hd, h1, h2, h3, h4]

/-- The theorem of claim C7 at the four singletons, the last one wrapped. -/
theorem C7_singletons_witness :
    CleanError ⟨0⟩ "Get" (some ErrNotFound) = (some ErrNotFound, []) ∧
    CleanError ⟨0⟩ "Get" (some ErrAlreadyExists) = (some ErrAlreadyExists, []) ∧
    CleanError ⟨0⟩ "Get" (some ErrPermissionDenied) = (some ErrPermissionDenied, []) ∧
    CleanError ⟨0⟩ "Get" (some (.wrapError 0 "quota: resource exhausted" ErrResourceExhausted)) =
      (some ErrResourceExhausted, []) :=
  ⟨(C7_singletons_returned ⟨0⟩ "Get" ErrNotFound rfl rfl rfl).1
      ((errors_Is_iff_isOrWraps _ _).1 rfl),
   (C7_singletons_returned ⟨0⟩ "Get" ErrAlreadyExists rfl rfl rfl).2.1
      (fun h => Bool.noConfusion ((errors_Is_iff_isOrWraps ErrAlreadyExists ErrNotFound).2 h))
      ((errors_Is_iff_isOrWraps _ _).1 rfl),
   (C7_singletons_returned ⟨0⟩ "Get" ErrPermissionDenied rfl rfl rfl).2.2.1
      (fun h => Bool.noConfusion ((errors_Is_iff_isOrWraps ErrPermissionDenied ErrNotFound).2 h))
      (fun h => Bool.noConfusion
        ((errors_Is_iff_isOrWraps ErrPermissionDenied ErrAlreadyExists).2 h))
      ((errors_Is_iff_isOrWraps _ _).1 rfl),
   (C7_singletons_returned ⟨0⟩ "Get"
      (.wrapError 0 "quota: resource exhausted" ErrResourceExhausted) rfl rfl rfl).2.2.2.1
      (fun h => Bool.noConfusion ((errors_Is_iff_isOrWraps
        (.wrapError 0 "quota: resource exhausted" ErrResourceExhausted) ErrNotFound).2 h))
      (fun h => Bool.noConfusion ((errors_Is_iff_isOrWraps
        (.wrapError 0 "quota: resource exhausted" ErrResourceExhausted) ErrAlreadyExists).2 h))
      (fun h => Bool.noConfusion ((errors_Is_iff_isOrWraps
        (.wrapError 0 "quota: resource exhausted" ErrResourceExhausted)
        ErrPermissionDenied).2 h))
      ((errors_Is_iff_isOrWraps _ _).1 rfl)⟩

/-- Claim C8: for every context, `CleanError(ctx, nil)` returns nil and hands
no record to the logger. -/
theorem C8_nil_returns_nil (ctx : Context) (caller : String) :
    CleanError ctx caller none = (none, []) :=
  rfl

/-- Claim C9: for every string `s`, the statuses of
`MakeInvalidArgumentError(s)`, `MakePermissionDeniedError(s)` and
`MakeFailedPreconditionError(s)` have the code of their kind; the message is
`s` when `s` is not empty and the fixed default of the kind when it is, so it
is never empty. -/
theorem C9_constructed_status (s : String) (a : Nat) :
    (MakeInvalidArgumentError s a).GRPCStatus =
      some ⟨.InvalidArgument, if s = "" then "invalid argument" else s⟩ ∧
    (MakePermissionDeniedError s a).GRPCStatus =
      some ⟨.PermissionDenied, if s = "" then "permission denied" else s⟩ ∧
    (MakeFailedPreconditionError s a).GRPCStatus =
      some ⟨.FailedPrecondition, if s = "" then "failed precondition" else s⟩ ∧
    (∀ st, (MakeInvalidArgumentError s a).GRPCStatus = some st ∨
        (MakePermissionDeniedError s a).GRPCStatus = some st ∨
        (MakeFailedPreconditionError s a).GRPCStatus = some st → st.message ≠ "") := by
  by_cases hs : s = ""
  · subst hs
    refine ⟨rfl, rfl, rfl, ?_⟩
    rintro st (h | h | h) <;>
      simp [MakeInvalidArgumentError, MakePermissionDeniedError, MakeFailedPreconditionError,
        GoError.GRPCStatus, statusInvalidArgument, statusPermissionDenied,
        statusFailedPrecondition, Status.New] at h <;>
      simp [← h]
  · refine ⟨?_, ?_, ?_, ?_⟩
    · simp [MakeInvalidArgumentError, GoError.GRPCStatus, Status.New, hs]
    · simp [MakePermissionDeniedError, GoError.GRPCStatus, Status.New, hs]
    · simp [MakeFailedPreconditionError, GoError.GRPCStatus, Status.New, hs]
    · rintro st (h | h | h) <;>
        simp [MakeInvalidArgumentError, MakePermissionDeniedError, MakeFailedPreconditionError,
          GoError.GRPCStatus, Status.New, hs] at h <;>
        simp [← h, hs]

/-- Claim C10, as amended: for every string `s`, `Error()` of
`MakePermissionDeniedError(s)` and of `MakeFailedPreconditionError(s)` is `s`
when `s` is not empty and the fixed default of the kind when it is, so never
empty; `Error()` of `MakeInternalError(s)` is `s` for every `s`, the default
"internal error" being the text of the `ErrInternal` singleton, which holds no
error; `Error()` of `MakeInvalidArgumentError(s)` is `s` when `s` is not
empty. -/
theorem C10_error_text (s : String) (a b : Nat) :
    (MakePermissionDeniedError s a).Error =
      some (if s = "" then "permission denied" else s) ∧
    (MakeFailedPreconditionError s a).Error =
      some (if s = "" then "failed precondition" else s) ∧
    (MakePermissionDeniedError s a).Error ≠ some "" ∧
    (MakeFailedPreconditionError s a).Error ≠ some "" ∧
    (MakeInternalError s a b).Error = some s ∧
    ErrInternal.Error = some "internal error" ∧
    (s ≠ "" → (MakeInvalidArgumentError s a).Error = some s) := by
  refine ⟨rfl, rfl, ?_, ?_, rfl, rfl, fun _ => rfl⟩
  · by_cases hs : s = "" <;> simp [MakePermissionDeniedError, GoError.Error, hs]
  · by_cases hs : s = "" <;> simp [MakeFailedPreconditionError, GoError.Error, hs]

/-- The theorem of claim C10 at the string "bad id". -/
theorem C10_error_text_witness :
    "bad id" ≠ "" ∧ (MakeInvalidArgumentError "bad id" 0).Error = some "bad id" ∧
    (MakePermissionDeniedError "bad id" 0).Error = some "bad id" :=
  ⟨by decide, (C10_error_text "bad id" 0 1).2.2.2.2.2.2 (by decide),
   (C10_error_text "bad id" 0 1).1⟩

/-- Claim C10 as stated fails at the empty string: `Error()` of
`MakeInternalError("")` and of `MakeInvalidArgumentError("")` is the empty
string, not the default of the kind. -/
theorem C10_counterexample_empty_message :
    (MakeInternalError "" 0 1).Error = some "" ∧
    (MakeInternalError "" 0 1).Error ≠ some "internal error" ∧
    (MakeInvalidArgumentError "" 0).Error = some "" ∧
    (MakeInvalidArgumentError "" 0).Error ≠ some "invalid argument" :=
  ⟨rfl, by decide, rfl, by decide⟩

/-- Claim C11: every fixed-message variant has the status of its kind, with a
fixed message that is not empty and equals its `Error()` text, and the twelve
kinds have twelve distinct codes. -/
theorem C11_fixed_message_variants (p : Ptr) :
    (GoError.cancelled p).GRPCStatus = some ⟨.Canceled, "context cancelled"⟩ ∧
    (GoError.unknown p).GRPCStatus = some ⟨.Unknown, "unknown error"⟩ ∧
    (GoError.deadlineExceeded p).GRPCStatus = some ⟨.DeadlineExceeded, "deadline exceeded"⟩ ∧
    (GoError.notFound p).GRPCStatus = some ⟨.NotFound, "not found"⟩ ∧
    (GoError.alreadyExists p).GRPCStatus = some ⟨.AlreadyExists, "already exists"⟩ ∧
    (GoError.resourceExhausted p).GRPCStatus =
      some ⟨.ResourceExhausted, "resource exhausted"⟩ ∧
    (GoError.aborted p).GRPCStatus = some ⟨.Aborted, "aborted"⟩ ∧
    (GoError.outOfRange p).GRPCStatus = some ⟨.OutOfRange, "out of range"⟩ ∧
    (GoError.unimplemented p).GRPCStatus = some ⟨.Unimplemented, "unimplemented"⟩ ∧
    (GoError.unavailable p).GRPCStatus = some ⟨.Unavailable, "unavailable"⟩ ∧
    (GoError.dataLoss p).GRPCStatus = some ⟨.DataLoss, "data loss"⟩ ∧
    (GoError.unauthenticated p).GRPCStatus = some ⟨.Unauthenticated, "unauthenticated"⟩ ∧
    (∀ e ∈ fixedMessageVariants p, ∃ st, e.GRPCStatus = some st ∧
      e.Error = some st.message ∧ st.message ≠ "" ∧ st.message ∈ fixedMessages) ∧
    ((fixedMessageVariants p).map (fun e => e.GRPCStatus.map Status.code)).Nodup := by
  refine ⟨rfl, rfl, rfl, rfl, rfl, rfl, rfl, rfl, rfl, rfl, rfl, rfl, ?_, ?_⟩
  · intro e he
    simp only [fixedMessageVariants, List.mem_cons, List.mem_singleton, List.not_mem_nil,
      or_false] at he
    rcases he with h | h | h | h | h | h | h | h | h | h | h | h <;> subst h <;>
      exact ⟨_, rfl, rfl, by decide, by decide⟩
  · simp [fixedMessageVariants, GoError.GRPCStatus, statusCancelled, statusUnknown,
      statusDeadlineExceeded, statusNotFound, statusAlreadyExists, statusResourceExhausted,
      statusAborted, statusOutOfRange, statusUnimplemented, statusUnavailable, statusDataLoss,
      statusUnauthenticated, Status.New]

/-- Claim C12: `CleanError` applied to its own result returns that result: for
nil, for every recognized error and for every unrecognized one, whatever the
context and the caller of the second call. -/
theorem C12_CleanError_idempotent (ctx ctx₂ : Context) (caller caller₂ : String)
    (err : Option GoError) :
    (CleanError ctx₂ caller₂ (CleanError ctx caller err).1).1 = (CleanError ctx caller err).1 ∧
    ((CleanError ctx₂ caller₂ (CleanError ctx caller err).1).1.bind GoError.GRPCStatus =
      (CleanError ctx caller err).1.bind GoError.GRPCStatus) := by
  have key : (CleanError ctx₂ caller₂ (CleanError ctx caller err).1).1 =
      (CleanError ctx caller err).1 := by
    cases err with
    | none => rfl
    | some e =>
      rcases CleanError_result_cases ctx caller e with ⟨x, hx, hc⟩ | ⟨_, r, hr, hc⟩ | ⟨_, hc⟩
      · rw [hc]
        simp only
        rw [CleanError_of_firstOfType_some ctx₂ caller₂
          (firstOfType_self (firstOfType_typeOf hx))]
      · rw [hc]
        exact CleanError_fixed_point ctx₂ caller₂ r (by
          simp only [List.mem_cons, List.mem_singleton, List.not_mem_nil, or_false] at hr ⊢
          tauto)
      · rw [hc]
        rfl
  exact ⟨key, by rw [key]⟩

/-- Claim C13: `*CancelledError` unwraps to `context.Canceled` and
`*DeadlineExceededError` to `context.DeadlineExceeded`, so `errors.Is` holds
between each singleton and its own sentinel and fails against the other; a
value of any other type of the taxonomy declares no `Unwrap` method, and
`errors.Is` on it is the comparison with the target alone. -/
theorem C13_unwrap_relation (p : Ptr) (e t : GoError)
    (ht : GoError.typeOf e ∈ taxonomyTypes)
    (hc : GoError.typeOf e ≠ .CancelledError)
    (hd : GoError.typeOf e ≠ .DeadlineExceededError) :
    (GoError.cancelled p).Unwrap = some context.Canceled ∧
    (GoError.deadlineExceeded p).Unwrap = some context.DeadlineExceeded ∧
    errors.Is (some ErrContextCancelled) (some context.Canceled) = true ∧
    errors.Is (some ErrDeadlineExceeded) (some context.DeadlineExceeded) = true ∧
    errors.Is (some ErrContextCancelled) (some context.DeadlineExceeded) = false ∧
    errors.Is (some ErrDeadlineExceeded) (some context.Canceled) = false ∧
    e.Unwrap = none ∧ e.UnwrapAll = none ∧ GoError.chain e = [e] ∧
    errors.Is (some e) (some t) = GoError.sameValue e t := by
  refine ⟨rfl, rfl, rfl, rfl, rfl, rfl, ?_⟩
  cases e <;> simp [GoError.typeOf, taxonomyTypes] at ht hc hd <;>
    simp [GoError.Unwrap, GoError.UnwrapAll, GoError.chain, errors.Is, GoError.is]

/-- The theorem of claim C13 at `ErrNotFound` and the target
`context.Canceled`. -/
theorem C13_unwrap_relation_witness :
    ErrNotFound.Unwrap = none ∧ ErrNotFound.UnwrapAll = none ∧
    errors.Is (some ErrNotFound) (some context.Canceled) = false :=
  ⟨(C13_unwrap_relation .static ErrNotFound context.Canceled (by decide) (by decide)
      (by decide)).2.2.2.2.2.2.1,
   (C13_unwrap_relation .static ErrNotFound context.Canceled (by decide) (by decide)
      (by decide)).2.2.2.2.2.2.2.1,
   (C13_unwrap_relation .static ErrNotFound context.Canceled (by decide) (by decide)
      (by decide)).2.2.2.2.2.2.2.2.2.trans rfl⟩

/-- Claim C14: `IsInvalidArgumentError` is the recognizer of the
specification: it returns `(x, true)` exactly when the error is or wraps an
`*InvalidArgumentError`, `x` being the first one of the unwrap chain, and
`(nil, false)` otherwise, also for nil; whenever it returns `(x, true)`,
`CleanError` returns the same `x`. -/
theorem C14_IsInvalidArgumentError_recognizer (ctx : Context) (caller : String)
    (err : Option GoError) :
    IsInvalidArgumentError err = IsInvalidArgumentError_spec err ∧
    IsInvalidArgumentError none = (none, false) ∧
    (∀ e, err = some e →
      (IsOrWrapsType .InvalidArgumentError e →
        ∃ x, firstOfType .InvalidArgumentError e = some x ∧
          GoError.typeOf x = .InvalidArgumentError ∧
          IsInvalidArgumentError err = (some x, true)) ∧
      (¬ IsOrWrapsType .InvalidArgumentError e → IsInvalidArgumentError err = (none, false))) ∧
    (∀ x, IsInvalidArgumentError err = (some x, true) →
      CleanError ctx caller err = (some x, [])) := by
  refine ⟨?_, rfl, ?_, ?_⟩
  · cases err with
    | none => rfl
    | some e =>
      simp only [IsInvalidArgumentError, IsInvalidArgumentError_spec, errors_As_eq_firstOfType]
  · rintro e rfl
    constructor
    · intro h
      obtain ⟨x, hx⟩ := firstOfType_isSome_of_isOrWrapsType h
      exact ⟨x, hx, firstOfType_typeOf hx, by
        simp [IsInvalidArgumentError, errors_As_eq_firstOfType, hx]⟩
    · intro h
      cases hf : firstOfType .InvalidArgumentError e with
      | none => simp [IsInvalidArgumentError, errors_As_eq_firstOfType, hf]
      | some x =>
        exact absurd ⟨x, List.mem_of_find?_eq_some hf, firstOfType_typeOf hf⟩ h
  · intro x hx
    cases err with
    | none => simp [IsInvalidArgumentError, errors.As] at hx
    | some e =>
      cases hf : firstOfType .InvalidArgumentError e with
      | none => simp [IsInvalidArgumentError, errors_As_eq_firstOfType, hf] at hx
      | some y =>
        simp only [IsInvalidArgumentError, errors_As_eq_firstOfType, hf, Prod.mk.injEq,
          Option.some.injEq, and_true] at hx
        subst hx
        exact CleanError_of_firstOfType_some ctx caller hf

/-- The theorem of claim C14 at `errors.Join` of `ErrNotFound` and a wrapped
`MakeInvalidArgumentError("bad id")`. -/
theorem C14_IsInvalidArgumentError_witness :
    IsInvalidArgumentError (some (.joinError 2
        [ErrNotFound, .wrapError 1 "lookup: bad id" (MakeInvalidArgumentError "bad id" 0)])) =
      (some (MakeInvalidArgumentError "bad id" 0), true) ∧
    CleanError ⟨0⟩ "Get" (some (.joinError 2
        [ErrNotFound, .wrapError 1 "lookup: bad id" (MakeInvalidArgumentError "bad id" 0)])) =
      (some (MakeInvalidArgumentError "bad id" 0), []) :=
  ⟨rfl, (C14_IsInvalidArgumentError_recognizer ⟨0⟩ "Get" (some (.joinError 2
      [ErrNotFound, .wrapError 1 "lookup: bad id" (MakeInvalidArgumentError "bad id" 0)]))).2.2.2
      (MakeInvalidArgumentError "bad id" 0) rfl⟩

/-- Claim C15: `CleanError` hands a record to the logger exactly on the
catch-all path: none for nil, none for an error that one of the seven
recognizers matches, and for an unrecognized error exactly one, of severity
error, with the context of the call, the name of the caller followed by
" failed" as message, and the original error under the key "error". -/
theorem C15_log_only_on_catch_all (ctx : Context) (caller : String) (e : GoError) :
    (CleanError ctx caller none).2 = [] ∧
    (¬ Unrecognized e → (CleanError ctx caller (some e)).2 = []) ∧
    (Unrecognized e →
      (CleanError ctx caller (some e)).2 =
        [⟨.Error, ctx, caller ++ " failed", [("error", e)]⟩]) ∧
    ((CleanError ctx caller (some e)).2 ≠ [] ↔ Unrecognized e) := by
  rcases CleanError_result_cases ctx caller e with ⟨x, hx, hc⟩ | ⟨hn, r, _, hc⟩ | ⟨hu, hc⟩
  · have hn : ¬ Unrecognized e := fun hu => by
      rw [hu.1] at hx
      exact Option.noConfusion hx
    exact ⟨rfl, fun _ => by rw [hc], fun hu => absurd hu hn, by simp [hc, hn]⟩
  · exact ⟨rfl, fun _ => by rw [hc], fun hu => absurd hu hn, by simp [hc, hn]⟩
  · exact ⟨rfl, fun hn => absurd hu hn, fun _ => by rw [hc]; rfl, by simp [hc, hu]⟩

/-- The theorem of claim C15 at `errors.New("pq: connection refused")`, which
no recognizer matches, and at `ErrNotFound`, which one does. -/
theorem C15_log_witness :
    (CleanError ⟨0⟩ "Get" (some (.errorString 0 "pq: connection refused"))).2 =
      [⟨.Error, ⟨0⟩, "Get failed", [("error", .errorString 0 "pq: connection refused")]⟩] ∧
    (CleanError ⟨0⟩ "Get" (some ErrNotFound)).2 = [] :=
  ⟨(C15_log_only_on_catch_all ⟨0⟩ "Get" (.errorString 0 "pq: connection refused")).2.2.1
      ⟨rfl, rfl, rfl, rfl, rfl, rfl, rfl⟩,
   (C15_log_only_on_catch_all ⟨0⟩ "Get" ErrNotFound).2.1
      (fun h => Bool.noConfusion h.2.2.2.1)⟩

/-- Claim C16: `CleanError` returns what the sanitizer of the specification
returns, the value of the first recognizer of the ordered list that matches:
when the recognizer at position `i` matches and none before it does, its
value is returned, whatever the later recognizers say.  A joined error
holding `context.DeadlineExceeded` and `ErrNotFound`, in either order, gives
`ErrDeadlineExceeded`; one holding `context.Canceled` and an
`*InvalidArgumentError` gives the `*InvalidArgumentError`. -/
theorem C16_first_matching_recognizer (ctx : Context) (caller : String)
    (err : Option GoError) :
    (CleanError ctx caller err).1 = sanitize_spec err ∧
    (∀ e x (i : Fin recognizers.length), err = some e →
      recognizers.get i e = some x →
      (∀ r ∈ recognizers.take i, r e = none) →
      (CleanError ctx caller err).1 = some x) ∧
    (CleanError ctx caller
      (some (.joinError 0 [context.DeadlineExceeded, ErrNotFound]))).1 =
      some ErrDeadlineExceeded ∧
    (CleanError ctx caller
      (some (.joinError 0 [ErrNotFound, context.DeadlineExceeded]))).1 =
      some ErrDeadlineExceeded ∧
    (CleanError ctx caller
      (some (.joinError 1 [context.Canceled, MakeInvalidArgumentError "bad id" 0]))).1 =
      some (MakeInvalidArgumentError "bad id" 0) := by
  have key : (CleanError ctx caller err).1 = sanitize_spec err := by
    cases err with
    | none => rfl
    | some e =>
      simp only [CleanError, sanitize_spec, recognizers, errors_As_eq_firstOfType,
        List.findSome?_cons, List.findSome?_nil]
      cases firstOfType .InvalidArgumentError e with
      | some x => rfl
      | none =>
        simp only
        split_ifs <;> rfl
  refine ⟨key, ?_, rfl, rfl, rfl⟩
  rintro e x i rfl hi hbefore
  rw [key]
  have hsplit : recognizers =
      recognizers.take i ++ recognizers.get i :: recognizers.drop (i + 1) := by
    rw [List.get_eq_getElem, List.getElem_cons_drop, List.take_append_drop]
  have hfind : recognizers.findSome? (fun r => r e) = some x :=
    List.findSome?_eq_some_iff.2 ⟨_, _, _, hsplit, hi, hbefore⟩
  simp only [sanitize_spec, hfind]

/-- The theorem of claim C16 at `errors.Join(ErrNotFound, context.DeadlineExceeded)`:
the third recognizer matches and the first two do not. -/
theorem C16_first_matching_witness :
    (CleanError ⟨0⟩ "Get" (some (.joinError 0 [ErrNotFound, context.DeadlineExceeded]))).1 =
      some ErrDeadlineExceeded :=
  (C16_first_matching_recognizer ⟨0⟩ "Get"
      (some (.joinError 0 [ErrNotFound, context.DeadlineExceeded]))).2.1
    (.joinError 0 [ErrNotFound, context.DeadlineExceeded]) ErrDeadlineExceeded
    ⟨2, by decide⟩ rfl rfl
    (by
      intro r hr
      simp only [recognizers, List.take_succ_cons, List.take_zero, List.mem_cons,
        List.mem_singleton, List.not_mem_nil, or_false] at hr
      rcases hr with h | h <;> subst h <;> rfl)

/-- Claim C17, as amended: the taxonomy values outside the allow-list of the
sanitizer are replaced by `ErrInternal`: the eight singletons `ErrUnknown`,
`ErrFailedPrecondition`, `ErrAborted`, `ErrOutOfRange`, `ErrUnimplemented`,
`ErrUnavailable`, `ErrDataLoss`, `ErrUnauthenticated`, and
`MakeFailedPreconditionError(s)` and `MakeInternalError(s)` for every string
`s`; the code of every value `CleanError` returns, unless that value is a nil
pointer, is one of the eight codes InvalidArgument, Canceled,
DeadlineExceeded, NotFound, AlreadyExists, PermissionDenied,
ResourceExhausted, Internal. -/
theorem C17_outside_allow_list_redacted (ctx : Context) (caller : String) (s : String)
    (a b : Nat) (err : Option GoError) (r : GoError)
    (h : (CleanError ctx caller err).1 = some r) (hr : ¬ IsNilPointer r) :
    (CleanError ctx caller (some ErrUnknown)).1 = some ErrInternal ∧
    (CleanError ctx caller (some ErrFailedPrecondition)).1 = some ErrInternal ∧
    (CleanError ctx caller (some ErrAborted)).1 = some ErrInternal ∧
    (CleanError ctx caller (some ErrOutOfRange)).1 = some ErrInternal ∧
    (CleanError ctx caller (some ErrUnimplemented)).1 = some ErrInternal ∧
    (CleanError ctx caller (some ErrUnavailable)).1 = some ErrInternal ∧
    (CleanError ctx caller (some ErrDataLoss)).1 = some ErrInternal ∧
    (CleanError ctx caller (some ErrUnauthenticated)).1 = some ErrInternal ∧
    (CleanError ctx caller (some (MakeFailedPreconditionError s a))).1 = some ErrInternal ∧
    (CleanError ctx caller (some (MakeInternalError s a b))).1 = some ErrInternal ∧
    ∃ st, r.GRPCStatus = some st ∧ st.code ∈ allowedCodes := by
  refine ⟨rfl, rfl, rfl, rfl, rfl, rfl, rfl, rfl, rfl, rfl, ?_⟩
  cases err with
  | none => exact Option.noConfusion h
  | some e =>
    rcases CleanError_result_cases ctx caller e with ⟨x, hx, hc⟩ | ⟨_, y, hy, hc⟩ | ⟨_, hc⟩
    · rw [hc] at h
      simp only [Option.some.injEq] at h
      subst h
      have ht := firstOfType_typeOf hx
      cases x <;> simp [GoError.typeOf] at ht
      rename_i p msg
      rw [GRPCStatus_invalidArgument_of_not_nil hr]
      by_cases hm : msg = "" <;>
        simp [hm, statusInvalidArgument, Status.New, allowedCodes]
    · rw [hc] at h
      simp only [Option.some.injEq] at h
      subst h
      simp only [List.mem_cons, List.mem_singleton, List.not_mem_nil, or_false] at hy
      rcases hy with h | h | h | h | h | h <;> subst h <;> exact ⟨_, rfl, by decide⟩
    · rw [hc] at h
      simp only [Option.some.injEq] at h
      subst h
      exact ⟨_, rfl, by decide⟩

/-- The theorem of claim C17 at a wrapped `MakeInvalidArgumentError("bad id")`,
whose result is that `*InvalidArgumentError`, not a nil pointer. -/
theorem C17_outside_allow_list_witness :
    (CleanError ⟨0⟩ "Get"
      (some (.wrapError 1 "lookup: bad id" (MakeInvalidArgumentError "bad id" 0)))).1 =
      some (MakeInvalidArgumentError "bad id" 0) ∧
    ¬ IsNilPointer (MakeInvalidArgumentError "bad id" 0) ∧
    (CleanError ⟨0⟩ "Get" (some (MakeFailedPreconditionError "locked" 0))).1 =
      some ErrInternal ∧
    ∃ st, (MakeInvalidArgumentError "bad id" 0).GRPCStatus = some st ∧
      st.code ∈ allowedCodes :=
  ⟨rfl, by simp [IsNilPointer, MakeInvalidArgumentError, GoError.ptrOf],
   (C17_outside_allow_list_redacted ⟨0⟩ "Get" "locked" 0 1
      (some (.wrapError 1 "lookup: bad id" (MakeInvalidArgumentError "bad id" 0)))
      (MakeInvalidArgumentError "bad id" 0) rfl
      (by simp [IsNilPointer, MakeInvalidArgumentError, GoError.ptrOf])).2.2.2.2.2.2.2.2.1,
   (C17_outside_allow_list_redacted ⟨0⟩ "Get" "locked" 0 1
      (some (.wrapError 1 "lookup: bad id" (MakeInvalidArgumentError "bad id" 0)))
      (MakeInvalidArgumentError "bad id" 0) rfl
      (by simp [IsNilPointer, MakeInvalidArgumentError, GoError.ptrOf])).2.2.2.2.2.2.2.2.2.2⟩

/-- Claim C17 as stated fails at an error that wraps the nil pointer
`(*InvalidArgumentError)(nil)`: `CleanError` returns that nil pointer, and the
`GRPCStatus` method of its type returns no status for it, so the result has
no code at all. -/
theorem C17_counterexample_wrapped_nil_pointer :
    (CleanError ⟨0⟩ "Get"
      (some (.wrapError 0 "validate: nil" nilInvalidArgumentError))).1 =
      some nilInvalidArgumentError ∧
    IsNilPointer nilInvalidArgumentError ∧
    ¬ ∃ st, nilInvalidArgumentError.GRPCStatus = some st ∧ st.code ∈ allowedCodes := by
  refine ⟨rfl, rfl, ?_⟩
  rintro ⟨st, hst, _⟩
  exact Option.noConfusion hst

end grpcerrors
